import Mathlib

/-!
# Verification of the sigma-permit license trust & validation subsystem

Shallow embedding of the license issuance / verification code
(`app/routers/licenses.py`, `app/crud.py`, `app/schemas.py`,
`app/crypto_utils.py`, `license_controller/main.py`) and proofs about it.

Conventions of the embedding:
* Python `datetime.date`/`datetime.datetime` values are modelled by
  `Date` (proleptic-Gregorian calendar fields) and `DateTime`
  (calendar date plus seconds within the day).  Datetime comparison and
  day arithmetic go through `DateTime.toInstant` (total seconds since the
  epoch of the ordinal scheme), which matches CPython's ordering and
  `timedelta` arithmetic for timezone-normalised values.
* Python exceptions are explicit: fallible steps return `Except PyErr`
  values, `try/except` blocks are `match`es on those values.  A statically
  guaranteed raise (such as `datetime.timedelta` on the class object, or a
  read of a conditionally-bound local name on a path where no binding was
  executed) is translated to `throw` of the corresponding error.
* Library primitives that the repository only calls (RSA-OAEP, AES-GCM,
  JSON serialisation, signature verification) enter as oracle parameters;
  the repository's own composition of them is embedded faithfully.
-/

namespace SigmaPermit

/-- Python exception values that the embedded code can raise. -/
inductive PyErr where
  | valueError : PyErr
  | attributeError : PyErr
  | unboundLocal : PyErr
  | typeError : PyErr
  | keyError : PyErr
  | other : PyErr
  deriving DecidableEq, Repr

instance {e a : Type} [DecidableEq e] [DecidableEq a] : DecidableEq (Except e a) := fun x y =>
  match x, y with
  | .error u, .error v =>
      if h : u = v then isTrue (by rw [h]) else isFalse (fun hc => h (Except.error.inj hc))
  | .ok u, .ok v =>
      if h : u = v then isTrue (by rw [h]) else isFalse (fun hc => h (Except.ok.inj hc))
  | .error _, .ok _ => isFalse (fun hc => Except.noConfusion hc)
  | .ok _, .error _ => isFalse (fun hc => Except.noConfusion hc)

/-! ## Calendar model (CPython `datetime` / `calendar`) -/

/-- Leap-year test of the proleptic Gregorian calendar
(`calendar.isleap`). -/
def isLeapYear (y : Nat) : Bool :=
  (y % 4 == 0 && y % 100 != 0) || y % 400 == 0

/-- Number of days in a month (`calendar.monthrange(y, m)[1]`). -/
def daysInMonth (y m : Nat) : Nat :=
  if m = 2 then (if isLeapYear y then 29 else 28)
  else if m = 4 ∨ m = 6 ∨ m = 9 ∨ m = 11 then 30
  else 31

/-- Days in the months of year `y` strictly before month `m`. -/
def daysBeforeMonth (y : Nat) : Nat → Nat
  | 0 => 0
  | 1 => 0
  | m + 1 => daysBeforeMonth y m + daysInMonth y m

/-- Days in all years strictly before year `y` (CPython
`datetime._days_before_year`). -/
def daysBeforeYear (y : Nat) : Nat :=
  365 * (y - 1) + (y - 1) / 4 - (y - 1) / 100 + (y - 1) / 400

/-- A calendar date as CPython stores it. -/
structure Date where
  year : Nat
  month : Nat
  day : Nat
  deriving DecidableEq, Repr

/-- The representable dates of CPython's `datetime.date`. -/
def Date.Valid (d : Date) : Prop :=
  1 ≤ d.year ∧ 1 ≤ d.month ∧ d.month ≤ 12 ∧ 1 ≤ d.day ∧ d.day ≤ daysInMonth d.year d.month

instance (d : Date) : Decidable d.Valid := by
  unfold Date.Valid; infer_instance

/-- CPython `date.toordinal`. -/
def Date.toordinal (d : Date) : Nat :=
  daysBeforeYear d.year + daysBeforeMonth d.year d.month + d.day

/-- CPython `date.replace(year=y)`: raises `ValueError` when the day does
not exist in the target month. -/
def Date.replaceYear (d : Date) (y : Nat) : Except PyErr Date :=
  if d.day ≤ daysInMonth y d.month then .ok { d with year := y }
  else .error .valueError

/-- A timezone-normalised datetime: calendar date plus seconds within
the day. -/
structure DateTime where
  date : Date
  sec : Nat
  deriving DecidableEq, Repr

def DateTime.Valid (t : DateTime) : Prop :=
  t.date.Valid ∧ t.sec < 86400

/-- Total seconds on the ordinal timeline; datetime comparison and
`timedelta` arithmetic are arithmetic on this value. -/
def DateTime.toInstant (t : DateTime) : Int :=
  (t.date.toordinal : Int) * 86400 + (t.sec : Int)

/-- `(a - b).days` of two Python datetimes: floor division of the total
seconds by 86400. -/
def timedeltaDays (a b : DateTime) : Int :=
  (a.toInstant - b.toInstant).fdiv 86400

/-- `instant + timedelta(days = k)` on the instant timeline. -/
def addDaysInstant (t : DateTime) (k : Int) : Int :=
  t.toInstant + 86400 * k

/-- The repeated source idiom
`(issue_date.replace(year=issue_date.year+1) - issue_date).days`
(crud.create_license, issue_license_file, validate_license,
validate_license_file, yearly billing interval). -/
def yearlyValidityDays (issue : DateTime) : Except PyErr Int :=
  match issue.date.replaceYear (issue.date.year + 1) with
  | .error e => .error e
  | .ok nd => .ok (timedeltaDays { date := nd, sec := issue.sec } issue)

/-! ## Data model (`app/models.py`) -/

/-- `models.PlanDefinition`, the fields the license core reads. -/
structure Plan where
  billing_interval : String
  deriving DecidableEq, Repr

/-- `models.Subscription`, the fields the license core reads. -/
structure Subscription where
  status : String
  issue_date : DateTime
  end_date : Option DateTime
  plan_id : String
  /-- Whether the `plan` relationship resolves (the `plan_id` row exists). -/
  planPresent : Bool
  deriving Repr, DecidableEq

/-- `models.License` row. -/
structure License where
  id : String
  license_key : String
  license_secret : String
  tenant_id : String
  template_id : Option String
  linked_subscription : Option String
  issued_at : Option DateTime
  validity_days : Option Int
  payload : String
  deriving Repr, DecidableEq

/-- `models.MasterKey` row. -/
structure MasterKey where
  id : String
  public_key : String
  private_key : String
  is_active : Bool
  deriving DecidableEq, Repr

/-- `models.Tenant`, the fields the license core reads. -/
structure Tenant where
  is_active : Bool
  deriving Repr, DecidableEq

/-- The database tables and lookups the embedded endpoints consult.
`masterKeys` is ordered as the query `db.query(MasterKey)` returns rows,
so `masterKeys.head?` is `db.query(models.MasterKey).first()`. -/
structure Db where
  licenses : List License
  masterKeys : List MasterKey
  subscription : String → Option Subscription
  plan : String → Option Plan
  tenant : String → Option Tenant

/-- `db.query(License).filter(License.license_key == key).first()`. -/
def Db.findLicense (db : Db) (key : String) : Option License :=
  db.licenses.find? (fun l => l.license_key == key)

/-! ## `schemas.LicenseCreate` validation (`app/schemas.py` lines 65-111)

Pydantic validates fields in declaration order
(`tenant_id`, `template_id`, `linked_subscription`, `issued_at`,
`validity_days`, `payload`).  Two consequences shape the embedding:
* a `field_validator` runs only when its field is *present* in the
  request body; an omitted field takes its declared default (`None`)
  with no validator run (`validate_default` is off);
* when it does run, it sees in `values.data` only the fields already
  validated, so the `linked_subscription` validator reads
  `values.data.get('issued_at')` and `values.data.get('validity_days')`
  as `None` on every input. -/

structure LicenseCreateReq where
  tenant_id : String
  template_id : Option String
  /-- The `linked_subscription` entry of the request body: `none` when
  the key is omitted (pydantic then uses the `None` default and skips
  the field's validator), `some v` when the key is present with value
  `v` (`some none` is an explicit JSON `null`). -/
  linked_subscription_field : Option (Option String)
  issued_at : Option DateTime
  validity_days : Option Int
  payload : String
  deriving Repr, DecidableEq

/-- The validated model's `linked_subscription` attribute (what
`model_dump()` exposes): the submitted value, or the `None` default when
the key was omitted. -/
def LicenseCreateReq.linked_subscription (req : LicenseCreateReq) : Option String :=
  req.linked_subscription_field.getD none

/-- Python truthiness of the optional `linked_subscription` string. -/
def optStrTruthy : Option String → Bool
  | none => false
  | some s => !s.isEmpty

/-- The `validate_subscription_fields` field validator on a *provided*
`linked_subscription` value, with `issued_at`/`validity_days` read from
`values.data` — which does not yet contain them, so both read as
`None`. -/
def validateSubscriptionFields (v : Option String) : Except String Unit :=
  let issued_at : Option DateTime := none
  let validity_days : Option Int := none
  if optStrTruthy v then
    if issued_at.isSome || validity_days.isSome then
      .error "When linked_subscription is provided, issued_at and validity_days must be None"
    else .ok ()
  else
    if issued_at.isNone || validity_days.isNone then
      .error "When linked_subscription is not provided, issued_at and validity_days are required"
    else .ok ()

/-- Full pydantic validation of `LicenseCreate`: the custom
`linked_subscription` validator — run only when the key is present in
the body — then the `validity_days` `gt=0` constraint (declared after
`linked_subscription`; also only checked on a non-null value). -/
def licenseCreateValidate (req : LicenseCreateReq) : Except String LicenseCreateReq :=
  match req.linked_subscription_field with
  | none =>
      match req.validity_days with
      | some v => if v > 0 then .ok req else .error "validity_days must be greater than 0"
      | none => .ok req
  | some v =>
      match validateSubscriptionFields v with
      | .error e => .error e
      | .ok _ =>
          match req.validity_days with
          | some w => if w > 0 then .ok req else .error "validity_days must be greater than 0"
          | none => .ok req

/-! ## `crud.create_license` (`app/crud.py` lines 85-142) -/

/-- Errors the creation path can surface. -/
inductive CreateErr where
  | valueError (msg : String) : CreateErr
  | uncaught (e : PyErr) : CreateErr
  deriving Repr, DecidableEq

/-- The subscription-derived `validity_days` computation of
`crud.create_license` (lines 108-131): `end_date - issue_date` when an
end date exists, otherwise the plan's billing interval with a 30-day
fallback (also 30 when the plan row is missing).  The `yearly` branch
propagates the `ValueError` that `date.replace` raises on a Feb-29
issue date. -/
def createValidityDays (db : Db) (sub : Subscription) : Except PyErr Int :=
  match sub.end_date with
  | some ed => .ok (timedeltaDays ed sub.issue_date)
  | none =>
      match db.plan sub.plan_id with
      | some plan =>
          if plan.billing_interval = "monthly" then
            .ok (daysInMonth sub.issue_date.date.year sub.issue_date.date.month : Int)
          else if plan.billing_interval = "yearly" then
            yearlyValidityDays sub.issue_date
          else
            .ok 30
      | none => .ok 30

/-- `crud.create_license` on an (already pydantic-validated) request:
key-pair generation is symbolic (the generated pair enters as arguments);
for a linked request the stored `issued_at`/`validity_days` are
overwritten from the subscription. -/
def create_license (db : Db) (req : LicenseCreateReq)
    (genKey genSecret newId : String) : Except CreateErr License :=
  let base : License :=
    { id := newId, license_key := genKey, license_secret := genSecret,
      tenant_id := req.tenant_id, template_id := req.template_id,
      linked_subscription := req.linked_subscription,
      issued_at := req.issued_at, validity_days := req.validity_days,
      payload := req.payload }
  if optStrTruthy req.linked_subscription then
    match db.subscription (req.linked_subscription.getD "") with
    | none => .error (.valueError "Linked subscription not found")
    | some sub =>
        match createValidityDays db sub with
        | .error e => .error (.uncaught e)
        | .ok vd =>
            .ok { base with issued_at := some sub.issue_date, validity_days := some vd }
  else
    .ok base

/-! ## `issue_license_file` (`app/routers/licenses.py` lines 184-282) -/

/-- How issuance can fail: an explicit `HTTPException`, or an uncaught
Python exception (there is no `try` around the body). -/
inductive IssueErr where
  | http (code : Nat) (msg : String) : IssueErr
  | uncaught (e : PyErr) : IssueErr
  deriving DecidableEq, Repr

/-- The `license` object serialized into the artifact. -/
structure ArtifactLicense where
  id : String
  tenant_id : String
  linked_subscription : Option String
  issued_at : Option DateTime
  validity_days : Option Int
  payload : String
  /-- `expires_at`, included only when truthy; kept as the instant of the
  serialized timestamp. -/
  expires_at : Option Int
  deriving Repr, DecidableEq

/-- The issued artifact: the claims object, the key that signed it
(`sign_payload(license_json, db_license.license_secret)`)
and the master public key it was hybrid-encrypted under. -/
structure Artifact where
  lic : ArtifactLicense
  signedWith : String
  encryptedWith : String
  deriving Repr, DecidableEq

/-- Lines 203-233: the `(validity_days, expires_at)` pair stamped into the
artifact.  Mirrors the source exactly: a missing subscription row is
silently skipped, `monthly`/`yearly` recompute, any other interval keeps
the record's stored `validity_days` (there is no 30-day fallback here),
and the expiry computation `timedelta(days=validity_days - 1)` raises
`TypeError` when that stored value is `None`. -/
def issueValidity (db : Db) (lic : License) : Except PyErr (Option Int × Option Int) :=
  if optStrTruthy lic.linked_subscription then
    match db.subscription (lic.linked_subscription.getD "") with
    | none => .ok (lic.validity_days, none)
    | some sub =>
        match sub.end_date with
        | some ed => .ok (some (timedeltaDays ed sub.issue_date), some ed.toInstant)
        | none =>
            if sub.planPresent then
              match db.plan sub.plan_id with
              | some plan =>
                  let vdE : Except PyErr (Option Int) :=
                    if plan.billing_interval = "monthly" then
                      .ok (some (daysInMonth sub.issue_date.date.year sub.issue_date.date.month : Int))
                    else if plan.billing_interval = "yearly" then
                      match yearlyValidityDays sub.issue_date with
                      | .error e => .error e
                      | .ok v => .ok (some v)
                    else
                      .ok lic.validity_days
                  match vdE with
                  | .error e => .error e
                  | .ok none => .error .typeError
                  | .ok (some v) =>
                      .ok (some v, some (addDaysInstant sub.issue_date (v - 1)))
              | none => .ok (lic.validity_days, none)
            else .ok (lic.validity_days, none)
  else .ok (lic.validity_days, none)

/-- `issue_license_file`: decode the key (400 on failure), find the
license (404), stamp the validity pair, sign with the license secret,
and encrypt under `db.query(MasterKey).first()` — the first row, active
or not — failing 500 only when the table is empty. -/
def issue_license_file (db : Db) (keyDecode : Except PyErr String) : Except IssueErr Artifact :=
  match keyDecode with
  | .error _ => .error (.http 400 "Invalid base64 encoded license key")
  | .ok license_key =>
      match db.findLicense license_key with
      | none => .error (.http 404 "License not found")
      | some lic =>
          match issueValidity db lic with
          | .error e => .error (.uncaught e)
          | .ok (vd, expires) =>
              match db.masterKeys.head? with
              | none => .error (.http 500 "Master key not configured")
              | some mk =>
                  .ok { lic := { id := lic.id, tenant_id := lic.tenant_id,
                                 linked_subscription := lic.linked_subscription,
                                 issued_at := lic.issued_at, validity_days := vd,
                                 payload := lic.payload, expires_at := expires },
                        signedWith := lic.license_secret,
                        encryptedWith := mk.public_key }

/-! ## `validate_license` (record-based, `app/routers/licenses.py` lines 418-532)

The function body is wrapped in `try: ... except HTTPException: raise
except Exception as e: raise HTTPException(500, ...)`.  Its response is a
`{"valid": bool, ...}` dictionary, not the `{parsing, signature,
validity}` tri-state.  Two lines evaluate `datetime.timedelta` where
`datetime` names the *class* `datetime.datetime` (imported at line 440),
so both the non-subscription expiry (line 502) and the no-end-date
subscription expiry (line 495) raise `AttributeError`, surfaced as
HTTP 500. -/

inductive RecordResult where
  /-- An `HTTPException` (404 not found, or 500 wrapping an uncaught
  exception). -/
  | http (code : Nat) (msg : String) : RecordResult
  /-- `{"valid": False, "error": ..., "details": ...}`. -/
  | invalid (error details : String) : RecordResult
  /-- `{"valid": True, "license": {...}}` with the recomputed fields. -/
  | valid (issued_at : Int) (validity_days : Option Int) (expires_at : Option Int) : RecordResult
  deriving DecidableEq, Repr

/-- Lines 466-486: `validity_days` recomputed from the current
subscription; the `yearly` branch can raise `ValueError` (Feb 29). -/
def recordValidityDays (db : Db) (lic : License) (sub : Subscription) :
    Except PyErr (Option Int) :=
  match sub.end_date with
  | some ed => .ok (some (timedeltaDays ed sub.issue_date))
  | none =>
      if sub.planPresent then
        match db.plan sub.plan_id with
        | some plan =>
            if plan.billing_interval = "monthly" then
              .ok (some (daysInMonth sub.issue_date.date.year sub.issue_date.date.month : Int))
            else if plan.billing_interval = "yearly" then
              match yearlyValidityDays sub.issue_date with
              | .error e => .error e
              | .ok v => .ok (some v)
            else .ok (some 30)
        | none => .ok lic.validity_days
      else .ok lic.validity_days

def validate_license (db : Db) (license_key : String) (now : Int) : RecordResult :=
  match db.findLicense license_key with
  | none => .http 404 "License not found"
  | some lic =>
      match db.tenant lic.tenant_id with
      | none => .invalid "License is inactive" "Associated tenant is inactive or not found"
      | some tenant =>
          if !tenant.is_active then
            .invalid "License is inactive" "Associated tenant is inactive or not found"
          else if optStrTruthy lic.linked_subscription then
            match db.subscription (lic.linked_subscription.getD "") with
            | none => .invalid "License validation failed" "Linked subscription not found"
            | some sub =>
                if sub.status ≠ "active" then
                  .invalid "License is inactive" ("Linked subscription is " ++ sub.status)
                else
                  match recordValidityDays db lic sub with
                  | .error _ => .http 500 "Validation error"
                  | .ok vd =>
                      match sub.end_date with
                      | some ed =>
                          if now > ed.toInstant then
                            .invalid "License has expired" "Expired"
                          else
                            .valid sub.issue_date.toInstant vd (some ed.toInstant)
                      | none =>
                          -- line 495: `issued_at + datetime.timedelta(...)`
                          -- raises AttributeError, caught as HTTP 500
                          .http 500 "Validation error: type object datetime.datetime has no attribute timedelta"
          else
            match lic.issued_at with
            | none =>
                -- line 499: `issued_at.tzinfo` on `None` raises AttributeError
                .http 500 "Validation error: NoneType object has no attribute tzinfo"
            | some _ =>
                -- line 502: `issued_at + datetime.timedelta(days=validity_days)`
                -- raises AttributeError before any expiry is computed
                .http 500 "Validation error: type object datetime.datetime has no attribute timedelta"

/-! ## `validate_license_file` (file-based, lines 534-715)

In this function `timedelta` is a *local* name: `from datetime import
timedelta` appears inside the `end_date` branch (line 626) and inside
the `yearly` branch (line 643), and nowhere else, so any other path that
reaches an expression using `timedelta` (line 649 for `monthly` and the
fallback interval, line 686 for the standard path) raises
`UnboundLocalError`, which the surrounding `except Exception` handlers
collapse to `validity = "invalid"`. -/

/-- A decrypted `license_data["license"]` object.  `issued_at` is `none`
when the field is absent, `some (.error e)` when present but
`datetime.fromisoformat` raises on it, `some (.ok t)` when it parses
(a JSON `null` behaves like the error case: the verdict is the same). -/
structure LicenseInfo where
  linked_subscription : Option String
  issued_at : Option (Except PyErr DateTime)
  validity_days : Option Int
  deriving Repr, DecidableEq

/-- A decrypted `{license, signature}` envelope; each field may be
missing. -/
structure LicenseData where
  license : Option LicenseInfo
  signature : Option String
  deriving Repr, DecidableEq

/-- Oracles for the library calls of `validate_license_file` and the
current time. -/
structure FileEnv where
  /-- `base64.b64decode(license_key).decode('utf-8')`. -/
  keyDecode : Except PyErr String
  /-- `file.file.read().decode('utf-8').strip()` (outside the inner try). -/
  fileRead : Except PyErr String
  /-- `hybrid_decrypt(content, master_private_key)`. -/
  decrypt : String → String → Except PyErr String
  /-- `json.loads(decrypted_content)` seen as the envelope. -/
  jsonParse : String → Except PyErr LicenseData
  /-- `json.dumps(license_info, separators=(',', ':'))`. -/
  dumps : LicenseInfo → String
  /-- `verify_signature(license_json, signature, license_key)` (total:
  the Python function catches its own exceptions and returns a bool). -/
  verifySig : String → String → String → Bool
  /-- `datetime.now(timezone.utc)` as an instant. -/
  now : Int

/-- The tri-state response dictionary. -/
structure FileVerdict where
  parsing : String
  validity : String
  signature : String
  license_info : Option LicenseInfo
  error : Option String
  deriving Repr, DecidableEq

/-- Lines 617-665, the subscription-linked validity check, given the
`linked_subscription` value from the artifact.  Also returns the final
value of the local `validity_days` variable (`none` when the branch
never assigned it), which the response does not expose but the validity
logic computes.  Key behaviors, straight from the source:
* `end_date` present: `validity_days` and `expiry_date` are computed but
  the branch contains no comparison against "now", so the initial
  `validity_status = "invalid"` survives;
* `monthly` and the fallback interval: line 649 reads the unbound local
  `timedelta` → `UnboundLocalError` → `except` at 663 → `"invalid"`;
* `yearly`: line 643 binds `timedelta`, so the comparison actually runs
  (Feb-29 issue dates raise `ValueError` first → `"invalid"`). -/
def fileLinkedValidity (db : Db) (env : FileEnv) (sid : String) : String × Option Int :=
  match db.subscription sid with
  | none => ("invalid", none)
  | some sub =>
      if sub.status ≠ "active" then ("invalid", none)
      else
        match sub.end_date with
        | some ed => ("invalid", some (timedeltaDays ed sub.issue_date))
        | none =>
            if sub.planPresent then
              match db.plan sub.plan_id with
              | some plan =>
                  if plan.billing_interval = "monthly" then
                    ("invalid",
                     some (daysInMonth sub.issue_date.date.year sub.issue_date.date.month : Int))
                  else if plan.billing_interval = "yearly" then
                    match yearlyValidityDays sub.issue_date with
                    | .error _ => ("invalid", none)
                    | .ok v =>
                        (if env.now ≤ addDaysInstant sub.issue_date (v - 1)
                         then "valid" else "invalid",
                         some v)
                  else ("invalid", some 30)
              | none => ("invalid", none)
            else ("invalid", none)

/-- Lines 666-695, the standard (non-subscription) validity check:
requires `issued_at` and `validity_days` in the artifact, parses
`issued_at`, then line 686 reads the unbound local `timedelta` →
`UnboundLocalError` → `except` at 697 → `"invalid"` on every input. -/
def fileStandardValidity (_env : FileEnv) (li : LicenseInfo) : String :=
  match li.issued_at, li.validity_days with
  | some iaE, some _ =>
      match iaE with
      | .error _ => "invalid"
      | .ok _ => "invalid"
  | _, _ => "invalid"

/-- Step 6 (lines 606-699): the validity component. -/
def fileValidity (db : Db) (env : FileEnv) (li : LicenseInfo) : String :=
  if optStrTruthy li.linked_subscription then
    (fileLinkedValidity db env (li.linked_subscription.getD "")).1
  else
    fileStandardValidity env li

def validate_license_file (db : Db) (env : FileEnv) : FileVerdict :=
  match env.keyDecode with
  | .error _ =>
      { parsing := "failed", validity := "invalid", signature := "verification_failed",
        license_info := none, error := some "Invalid base64 license key" }
  | .ok search_key =>
      match db.findLicense search_key with
      | none =>
          { parsing := "failed", validity := "invalid", signature := "verification_failed",
            license_info := none, error := some "License key not found in database" }
      | some lic =>
          match env.fileRead with
          | .error _ =>
              -- raised outside the inner try; the function-level handler
              -- returns the same tri-state shape
              { parsing := "failed", validity := "invalid", signature := "verification_failed",
                license_info := none, error := some "Unexpected error" }
          | .ok content =>
              match db.masterKeys.head? with
              | none =>
                  { parsing := "failed", validity := "invalid", signature := "verification_failed",
                    license_info := none, error := some "Master key not configured" }
              | some mk =>
                  match env.decrypt content mk.private_key with
                  | .error _ =>
                      { parsing := "failed", validity := "invalid",
                        signature := "verification_failed", license_info := none,
                        error := some "Failed to decrypt or parse license file" }
                  | .ok plain =>
                      match env.jsonParse plain with
                      | .error _ =>
                          { parsing := "failed", validity := "invalid",
                            signature := "verification_failed", license_info := none,
                            error := some "Failed to decrypt or parse license file" }
                      | .ok ld =>
                          let sigStatus :=
                            match ld.license, ld.signature with
                            | some li, some s =>
                                if env.verifySig (env.dumps li) s lic.license_key
                                then "verified" else "verification_failed"
                            | _, _ => "verification_failed"
                          let validity :=
                            match ld.license with
                            | none => "invalid"
                            | some li => fileValidity db env li
                          { parsing := "success", validity := validity,
                            signature := sigStatus, license_info := ld.license,
                            error := none }

/-! ## `get_master_keys` (lines 71-96) -/

/-- The masked private key shown for *every* row: computed once from
`db.query(models.MasterKey).first()`, unmasked whenever its length is at
most 40 characters. -/
def maskedPrivateKey (records : List MasterKey) : String :=
  match records.head? with
  | none => "Not generated"
  | some r =>
      if r.private_key.isEmpty then "Not generated"
      else if r.private_key.length > 40 then
        r.private_key.take 20 ++ "..." ++ r.private_key.drop (r.private_key.length - 20)
      else r.private_key

structure MasterKeyEntry where
  id : String
  public_key : String
  private_key_masked : String
  is_active : Bool
  deriving DecidableEq, Repr

def get_master_keys (superuser : Bool) (records : List MasterKey) :
    Except Nat (List MasterKeyEntry) :=
  if !superuser then .error 403
  else .ok (records.map fun mk =>
    { id := mk.id, public_key := mk.public_key,
      private_key_masked := maskedPrivateKey records, is_active := mk.is_active })

/-! ## Renewal controller (`license_controller/main.py` lines 9-48) -/

/-- Outcome of `requests.post(FETCH_URL, ...)`. -/
inductive FetchOutcome where
  | ok (content : String) : FetchOutcome
  /-- `resp.status_code != 200`. -/
  | badStatus : FetchOutcome
  /-- the request (or the response handling / file write) raised. -/
  | netError : FetchOutcome
  deriving DecidableEq, Repr

/-- `days_until` (main.py lines 9-10):
`(isoparse(expiry_iso) - datetime.datetime.utcnow()).days`.  Its only
call site, line 23, is unreachable (see `controllerRemaining`). -/
def daysUntil (expiry now : Int) : Int := (expiry - now).fdiv 86400

/-- `common.models.SignedLicense`: the shared artifact model the
controller parses the local file into.  Its only fields are
`encrypted_payload` and `signature` — it has *no* `payload` field. -/
structure SignedLicense where
  encrypted_payload : String
  signature : String
  deriving DecidableEq, Repr

/-- Lines 14-27: read the artifact and compute remaining days; every
failure (missing file, unreadable JSON, model mismatch) is caught and
collapses to `-1`.  `parse` abstracts
`SignedLicense(**json.load(f))` — file read, JSON decode and pydantic
construction.  When construction *succeeds*, line 22 still evaluates
`.payload` on the `SignedLicense` instance, which has no such attribute:
the guaranteed `AttributeError` is caught by the `except` at line 25, so
`remaining` is `-1` on this path too, and the `days_until` comparison on
line 23 is never reached. -/
def controllerRemaining (parse : String → Except PyErr SignedLicense)
    (state : Option String) (now : Int) : Int :=
  match state with
  | none => -1
  | some content =>
      match parse content with
      | .error _ => -1
      | .ok _ => -1

/-- One tick of the controller loop (lines 13-45): returns the new local
artifact state and whether a fetch was attempted.  Fetch failures
(non-200 or exception) leave the artifact unchanged; nothing escapes the
tick. -/
def controller_tick (threshold : Int) (parse : String → Except PyErr SignedLicense)
    (state : Option String) (now : Int) (fetch : FetchOutcome) :
    Option String × Bool :=
  let remaining := controllerRemaining parse state now
  if remaining < 0 ∨ remaining ≤ threshold then
    match fetch with
    | .ok newContent => (some newContent, true)
    | .badStatus => (state, true)
    | .netError => (state, true)
  else (state, false)

/-- The loop itself: a fold of ticks over any (arbitrarily long) schedule
of environments; total by construction because each tick is. -/
def controller_run (threshold : Int) (parse : String → Except PyErr SignedLicense)
    (state : Option String) : List (Int × FetchOutcome) → Option String
  | [] => state
  | (now, fetch) :: rest =>
      controller_run threshold parse (controller_tick threshold parse state now fetch).1 rest

/-! ## Hybrid encryption (`app/crypto_utils.py` lines 243-316)

Byte strings are `List Nat` with every element below 256; base64 text is
the `List Nat` of its ASCII codes (`58` is the colon separator, `61` the
padding `=`).  The RSA-OAEP and AES-256-GCM primitives are the
`cryptography` library's, so they enter as a parameter record; the
repository's own composition — the wire format
`base64(rsaEnc(aesKey)) ':' base64(iv ‖ tag ‖ ct)` and its splitting and
slicing on decryption — is embedded exactly. -/

def isBytes (l : List Nat) : Prop := ∀ b ∈ l, b < 256

instance (l : List Nat) : Decidable (isBytes l) := by
  unfold isBytes; infer_instance

/-- The base64 alphabet as ASCII codes. -/
def b64Code (n : Nat) : Nat :=
  if n < 26 then 65 + n
  else if n < 52 then 71 + n
  else if n < 62 then n - 4
  else if n = 62 then 43
  else 47

/-- Inverse alphabet lookup. -/
def b64Dec (c : Nat) : Nat :=
  if 65 ≤ c ∧ c ≤ 90 then c - 65
  else if 97 ≤ c ∧ c ≤ 122 then c - 71
  else if 48 ≤ c ∧ c ≤ 57 then c + 4
  else if c = 43 then 62
  else 63

/-- `base64.b64encode` on a byte string, as ASCII codes. -/
def encodeB64 : List Nat → List Nat
  | [] => []
  | [a] => [b64Code (a / 4), b64Code (a % 4 * 16), 61, 61]
  | [a, b] => [b64Code (a / 4), b64Code (a % 4 * 16 + b / 16), b64Code (b % 16 * 4), 61]
  | a :: b :: c :: rest =>
      b64Code (a / 4) :: b64Code (a % 4 * 16 + b / 16) ::
      b64Code (b % 16 * 4 + c / 64) :: b64Code (c % 64) :: encodeB64 rest

/-- `base64.b64decode` on canonical base64 text (padding only at the
end); `none` models a decoding error. -/
def decodeB64 : List Nat → Option (List Nat)
  | [] => some []
  | c1 :: c2 :: c3 :: c4 :: rest =>
      if c3 = 61 then
        if c4 = 61 ∧ rest = [] then some [b64Dec c1 * 4 + b64Dec c2 / 16] else none
      else if c4 = 61 then
        if rest = [] then
          some [b64Dec c1 * 4 + b64Dec c2 / 16, b64Dec c2 % 16 * 16 + b64Dec c3 / 4]
        else none
      else
        (decodeB64 rest).map (fun tl =>
          (b64Dec c1 * 4 + b64Dec c2 / 16) ::
          (b64Dec c2 % 16 * 16 + b64Dec c3 / 4) ::
          (b64Dec c3 % 4 * 64 + b64Dec c4) :: tl)
  | _ => none

/-- `encrypted_data.split(":", 1)`: split at the first colon (ASCII 58);
`none` when no colon occurs (`len(parts) != 2` → `ValueError`). -/
def splitFirstColon : List Nat → Option (List Nat × List Nat)
  | [] => none
  | c :: rest =>
      if c = 58 then some ([], rest)
      else (splitFirstColon rest).map (fun p => (c :: p.1, p.2))

/-- The library primitives used by the hybrid scheme. -/
structure HybridPrims where
  /-- RSA-OAEP-SHA256 encryption: public key bytes, message → ciphertext. -/
  rsaEncrypt : List Nat → List Nat → List Nat
  /-- RSA-OAEP-SHA256 decryption: private key bytes, ciphertext → message. -/
  rsaDecrypt : List Nat → List Nat → List Nat
  /-- AES-256-GCM encryption: key, iv, plaintext → (ciphertext, tag). -/
  gcmEncrypt : List Nat → List Nat → List Nat → List Nat × List Nat
  /-- AES-256-GCM decryption: key, iv, tag, ciphertext → plaintext
  (`none` = `InvalidTag`). -/
  gcmDecrypt : List Nat → List Nat → List Nat → List Nat → Option (List Nat)

/-- `hybrid_encrypt(data, rsa_public_key_b64)` with the randomly drawn
`aes_key` (`os.urandom(32)`) and `iv` (`os.urandom(12)`) as inputs:
AES-GCM the payload, assemble `iv + tag + ciphertext`, RSA-encrypt the
AES key, and join the two base64 halves with a colon. -/
def hybrid_encrypt (p : HybridPrims) (aesKey iv data pub : List Nat) : List Nat :=
  encodeB64 (p.rsaEncrypt pub aesKey) ++
    58 :: encodeB64 (iv ++ (p.gcmEncrypt aesKey iv data).2 ++ (p.gcmEncrypt aesKey iv data).1)

/-- `hybrid_decrypt(encrypted_data, rsa_private_key_b64)`: split at the
first colon, base64-decode both halves, RSA-decrypt the AES key, slice
`[0:12]`/`[12:28]`/`[28:]` into iv, tag and ciphertext, AES-GCM
decrypt. `none` models any raised exception. -/
def hybrid_decrypt (p : HybridPrims) (encryptedData priv : List Nat) : Option (List Nat) :=
  match splitFirstColon encryptedData with
  | none => none
  | some (l, r) =>
      match decodeB64 l, decodeB64 r with
      | some encryptedAesKey, some aesEncrypted =>
          p.gcmDecrypt (p.rsaDecrypt priv encryptedAesKey) (aesEncrypted.take 12)
            ((aesEncrypted.drop 12).take 16) (aesEncrypted.drop 28)
      | _, _ => none

/-! ## Calendar lemmas -/

theorem isLeapYear_iff (y : Nat) :
    isLeapYear y = true ↔ ((y % 4 = 0 ∧ y % 100 ≠ 0) ∨ y % 400 = 0) := by
  unfold isLeapYear
  simp [Bool.and_eq_true, Bool.or_eq_true]

theorem div_succ_four (y : Nat) (hy : 1 ≤ y) :
    y / 4 = (y - 1) / 4 + (if y % 4 = 0 then 1 else 0) := by
  by_cases h : y % 4 = 0 <;> simp only [h, if_true, if_false] <;> omega

theorem div_succ_hundred (y : Nat) (hy : 1 ≤ y) :
    y / 100 = (y - 1) / 100 + (if y % 100 = 0 then 1 else 0) := by
  by_cases h : y % 100 = 0 <;> simp only [h, if_true, if_false] <;> omega

theorem div_succ_fourhundred (y : Nat) (hy : 1 ≤ y) :
    y / 400 = (y - 1) / 400 + (if y % 400 = 0 then 1 else 0) := by
  by_cases h : y % 400 = 0 <;> simp only [h, if_true, if_false] <;> omega

theorem daysBeforeYear_succ_leap (y : Nat) (hy : 1 ≤ y) (h : isLeapYear y = true) :
    daysBeforeYear (y + 1) = daysBeforeYear y + 366 := by
  have hp := (isLeapYear_iff y).mp h
  have h4 := div_succ_four y hy
  have h100 := div_succ_hundred y hy
  have h400 := div_succ_fourhundred y hy
  have hdvdA : y % 400 = 0 → y % 100 = 0 := by omega
  have hdvdB : y % 400 = 0 → y % 4 = 0 := by omega
  rcases hp with ⟨ha, hb⟩ | hc
  · rw [if_pos ha] at h4
    rw [if_neg hb] at h100
    rw [if_neg (fun hc => hb (hdvdA hc))] at h400
    unfold daysBeforeYear
    obtain ⟨z, rfl⟩ : ∃ z, y = z + 1 := ⟨y - 1, by omega⟩
    simp only [Nat.add_sub_cancel] at *
    omega
  · rw [if_pos (hdvdB hc)] at h4
    rw [if_pos (hdvdA hc)] at h100
    rw [if_pos hc] at h400
    unfold daysBeforeYear
    obtain ⟨z, rfl⟩ : ∃ z, y = z + 1 := ⟨y - 1, by omega⟩
    simp only [Nat.add_sub_cancel] at *
    omega

theorem daysBeforeYear_succ_nonleap (y : Nat) (hy : 1 ≤ y) (h : isLeapYear y = false) :
    daysBeforeYear (y + 1) = daysBeforeYear y + 365 := by
  have hp : ¬((y % 4 = 0 ∧ y % 100 ≠ 0) ∨ y % 400 = 0) := by
    intro hq
    rw [(isLeapYear_iff y).mpr hq] at h
    simp at h
  have h4 := div_succ_four y hy
  have h100 := div_succ_hundred y hy
  have h400 := div_succ_fourhundred y hy
  have hA : ¬ y % 400 = 0 := fun hc => hp (Or.inr hc)
  rw [if_neg hA] at h400
  by_cases hB : y % 4 = 0
  · have hC : y % 100 = 0 := by
      by_contra hc
      exact hp (Or.inl ⟨hB, hc⟩)
    rw [if_pos hB] at h4
    rw [if_pos hC] at h100
    unfold daysBeforeYear
    obtain ⟨z, rfl⟩ : ∃ z, y = z + 1 := ⟨y - 1, by omega⟩
    simp only [Nat.add_sub_cancel] at *
    omega
  · have hC : ¬ y % 100 = 0 := by omega
    rw [if_neg hB] at h4
    rw [if_neg hC] at h100
    unfold daysBeforeYear
    obtain ⟨z, rfl⟩ : ∃ z, y = z + 1 := ⟨y - 1, by omega⟩
    simp only [Nat.add_sub_cancel] at *
    omega

theorem daysBeforeYear_succ (y : Nat) (hy : 1 ≤ y) :
    daysBeforeYear (y + 1) = daysBeforeYear y + 365 + (if isLeapYear y then 1 else 0) := by
  cases hly : isLeapYear y
  · rw [daysBeforeYear_succ_nonleap y hy hly]
    simp
  · rw [daysBeforeYear_succ_leap y hy hly]
    simp

theorem daysBeforeMonth_year_change (y1 y2 m : Nat) (hm : m ≤ 12) :
    daysBeforeMonth y1 m + (if 3 ≤ m ∧ isLeapYear y2 then 1 else 0) =
      daysBeforeMonth y2 m + (if 3 ≤ m ∧ isLeapYear y1 then 1 else 0) := by
  by_cases h1 : isLeapYear y1 <;> by_cases h2 : isLeapYear y2 <;>
    interval_cases m <;>
    simp [daysBeforeMonth, daysInMonth, h1, h2]

theorem toordinal_next_year (y m d : Nat) (hy : 1 ≤ y) (hm : m ≤ 12) :
    Date.toordinal ⟨y + 1, m, d⟩ = Date.toordinal ⟨y, m, d⟩ + 365 ∨
      Date.toordinal ⟨y + 1, m, d⟩ = Date.toordinal ⟨y, m, d⟩ + 366 := by
  have hmonth := daysBeforeMonth_year_change (y + 1) y m hm
  have hyear := daysBeforeYear_succ y hy
  simp only [Date.toordinal]
  by_cases hm3 : 3 ≤ m <;> cases hly : isLeapYear y <;> cases hly1 : isLeapYear (y + 1) <;>
    rw [hly, hly1] at hmonth <;> rw [hly] at hyear <;>
    simp only [hm3, true_and, false_and, and_true, and_false, if_true, if_false,
      Bool.false_eq_true, if_pos, ite_true, ite_false, ite_self] at hmonth hyear ⊢ <;>
    omega

theorem daysInMonth_not_feb (y1 y2 m : Nat) (h : m ≠ 2) :
    daysInMonth y1 m = daysInMonth y2 m := by
  unfold daysInMonth
  rw [if_neg h, if_neg h]

theorem yearly_365_or_366 (issue : DateTime) (hv : issue.date.Valid)
    (hfeb : ¬(issue.date.month = 2 ∧ issue.date.day = 29)) :
    ∃ n : Int, yearlyValidityDays issue = .ok n ∧ (n = 365 ∨ n = 366) := by
  obtain ⟨⟨y, m, d⟩, s⟩ := issue
  obtain ⟨hy, hm1, hm, hd1, hd⟩ := hv
  simp only at hfeb hd ⊢
  have hrep : Date.replaceYear ⟨y, m, d⟩ (y + 1) = .ok ⟨y + 1, m, d⟩ := by
    unfold Date.replaceYear
    rw [if_pos ?hle]
    case hle =>
      by_cases h2 : m = 2
      · subst h2
        have hne : d ≠ 29 := fun hc => hfeb ⟨rfl, hc⟩
        have h29 : daysInMonth y 2 ≤ 29 := by
          unfold daysInMonth
          rw [if_pos rfl]
          cases hly : isLeapYear y <;> simp [hly]
        have h28 : 28 ≤ daysInMonth (y + 1) 2 := by
          unfold daysInMonth
          rw [if_pos rfl]
          cases hly : isLeapYear (y + 1) <;> simp [hly]
        show d ≤ daysInMonth (y + 1) 2
        omega
      · rw [daysInMonth_not_feb (y + 1) y m h2]
        exact hd
  unfold yearlyValidityDays
  simp only [hrep]
  refine ⟨_, rfl, ?_⟩
  unfold timedeltaDays DateTime.toInstant
  simp only
  have hord := toordinal_next_year y m d hy hm
  rcases hord with h | h
  · left
    have heq : ((Date.toordinal ⟨y + 1, m, d⟩ : Int) * 86400 + (s : Int)) -
        ((Date.toordinal ⟨y, m, d⟩ : Int) * 86400 + (s : Int)) = 365 * 86400 := by
      push_cast [h]
      ring
    rw [heq, Int.mul_fdiv_cancel _ (by norm_num)]
  · right
    have heq : ((Date.toordinal ⟨y + 1, m, d⟩ : Int) * 86400 + (s : Int)) -
        ((Date.toordinal ⟨y, m, d⟩ : Int) * 86400 + (s : Int)) = 366 * 86400 := by
      push_cast [h]
      ring
    rw [heq, Int.mul_fdiv_cancel _ (by norm_num)]

/-! ## Claim C6 -/

/-- C6 counterexample: the claim promises a 365/366 day count for *every*
subscription `issueDate`, but for the valid date 2024-02-29 the source's
`issue_date.replace(year=issue_date.year + 1)` raises `ValueError`
(2025-02-29 does not exist), so the yearly computation returns no day
count at all. -/
theorem C6_counterexample :
    Date.Valid ⟨2024, 2, 29⟩ ∧
      yearlyValidityDays { date := ⟨2024, 2, 29⟩, sec := 0 } = .error .valueError :=
  ⟨by decide, rfl⟩

/-- C6 (amended): for every valid subscription `issueDate` that is not a
February 29, the yearly validity-window computation
(`(issue_date.replace(year=issue_date.year+1) - issue_date).days`, shared
by `create_license` and `issue_license_file`) succeeds and returns 365 or
366 — including when the interval crosses a February 29.  On a
February 29 issue date it instead raises `ValueError`. -/
theorem C6_yearly_validity_days (issue : DateTime) (hv : issue.date.Valid)
    (hfeb : ¬(issue.date.month = 2 ∧ issue.date.day = 29)) :
    ∃ n : Int, yearlyValidityDays issue = .ok n ∧ (n = 365 ∨ n = 366) :=
  yearly_365_or_366 issue hv hfeb

/-- C6 witness: the amended theorem applied to the concrete issue date
2024-03-01 (an interval that crosses 2025 without a Feb 29). -/
theorem C6_yearly_validity_days_witness :
    Date.Valid ⟨2024, 3, 1⟩ ∧
      ∃ n : Int, yearlyValidityDays { date := ⟨2024, 3, 1⟩, sec := 0 } = .ok n ∧
        (n = 365 ∨ n = 366) :=
  ⟨by decide, C6_yearly_validity_days { date := ⟨2024, 3, 1⟩, sec := 0 } (by decide) (by decide)⟩

/-! ## Claim C10 -/

/-- C10: in `get_master_keys`, every listed row shows the same
`private_key_masked`, computed from the *first* master-key row of the
table, and that value is the full, unmasked private key whenever its
length is at most 40 characters; the first-20 + "..." + last-20 masking
applies only beyond 40 characters. -/
theorem C10_master_key_masking (records : List MasterKey) (r : MasterKey)
    (entries : List MasterKeyEntry)
    (hr : records.head? = some r)
    (hout : get_master_keys true records = .ok entries) :
    (∀ e ∈ entries, e.private_key_masked = maskedPrivateKey records) ∧
    (r.private_key.isEmpty = false → r.private_key.length ≤ 40 →
      maskedPrivateKey records = r.private_key) ∧
    (r.private_key.isEmpty = false → r.private_key.length > 40 →
      maskedPrivateKey records =
        r.private_key.take 20 ++ "..." ++ r.private_key.drop (r.private_key.length - 20)) := by
  rcases records with _ | ⟨r0, rest⟩
  · simp at hr
  obtain rfl : r0 = r := by simpa using hr
  have hmask : maskedPrivateKey (r0 :: rest) =
      (if r0.private_key.isEmpty = true then "Not generated"
       else if r0.private_key.length > 40 then
         r0.private_key.take 20 ++ "..." ++ r0.private_key.drop (r0.private_key.length - 20)
       else r0.private_key) := rfl
  refine ⟨?_, ?_, ?_⟩
  · intro e he
    unfold get_master_keys at hout
    simp only [Bool.not_true, if_false] at hout
    cases hout
    simp only [List.mem_map] at he
    obtain ⟨mk, _, rfl⟩ := he
    rfl
  · intro hne h40
    rw [hmask, if_neg (by simp [hne]), if_neg (by omega)]
  · intro hne h40
    rw [hmask, if_neg (by simp [hne]), if_pos h40]

/-- C10 witness: two stored master-key rows whose first row holds the
short (9-character) private key `"shortkey1"`; the endpoint lists both
rows with `private_key_masked` equal to that full key. -/
theorem C10_master_key_masking_witness :
    (∀ e ∈ [MasterKeyEntry.mk "m1" "pubA" "shortkey1" false,
            MasterKeyEntry.mk "m2" "pubB" "shortkey1" true],
        e.private_key_masked =
          maskedPrivateKey
            [MasterKey.mk "m1" "pubA" "shortkey1" false, MasterKey.mk "m2" "pubB" "privBprivBprivB" true]) ∧
    (("shortkey1" : String).isEmpty = false → ("shortkey1" : String).length ≤ 40 →
      maskedPrivateKey
          [MasterKey.mk "m1" "pubA" "shortkey1" false, MasterKey.mk "m2" "pubB" "privBprivBprivB" true]
        = "shortkey1") ∧
    (("shortkey1" : String).isEmpty = false → ("shortkey1" : String).length > 40 →
      maskedPrivateKey
          [MasterKey.mk "m1" "pubA" "shortkey1" false, MasterKey.mk "m2" "pubB" "privBprivBprivB" true]
        = ("shortkey1" : String).take 20 ++ "..." ++
            ("shortkey1" : String).drop (("shortkey1" : String).length - 20)) :=
  C10_master_key_masking
    [MasterKey.mk "m1" "pubA" "shortkey1" false, MasterKey.mk "m2" "pubB" "privBprivBprivB" true]
    (MasterKey.mk "m1" "pubA" "shortkey1" false)
    [MasterKeyEntry.mk "m1" "pubA" "shortkey1" false,
     MasterKeyEntry.mk "m2" "pubB" "shortkey1" true]
    rfl rfl

/-! ## Claim C9 -/

theorem controller_tick_eq (threshold : Int) (parse : String → Except PyErr SignedLicense)
    (state : Option String) (now : Int) (fetch : FetchOutcome) :
    controller_tick threshold parse state now fetch =
      if controllerRemaining parse state now < 0 ∨
          controllerRemaining parse state now ≤ threshold then
        ((match fetch with | .ok c => some c | .badStatus => state | .netError => state), true)
      else (state, false) := by
  cases fetch <;> rfl

/-- C9: the claim's fetch condition is false of the program.  Line 22 of
the controller evaluates `SignedLicense(**license_data).payload`, but
`SignedLicense` has only `encrypted_payload` and `signature`, so the
attribute access raises `AttributeError` on every artifact the local
file could hold; the `except` at line 25 collapses it to
`remaining = -1`.  Hence — whatever the file contents, parse outcome,
clock or threshold — `remaining` is `-1` on every tick, a fetch is
attempted unconditionally (the remaining-days/threshold comparison is
dead code), the artifact is overwritten exactly on fetch success and
left unchanged on any fetch failure, and the loop proceeds to the next
tick. -/
theorem C9_controller_always_fetches (threshold : Int)
    (parse : String → Except PyErr SignedLicense)
    (state : Option String) (now : Int) (fetch : FetchOutcome) :
    controllerRemaining parse state now = -1 ∧
    (controller_tick threshold parse state now fetch).2 = true ∧
    (controller_tick threshold parse state now fetch).1 =
      (match fetch with
        | .ok c => some c
        | .badStatus => state
        | .netError => state) ∧
    (∀ rest, controller_run threshold parse state ((now, fetch) :: rest) =
      controller_run threshold parse
        (controller_tick threshold parse state now fetch).1 rest) := by
  have hrem : controllerRemaining parse state now = -1 := by
    unfold controllerRemaining
    rcases state with _ | c
    · rfl
    rcases hp : parse c with e | sl <;> simp [hp]
  have hteq := controller_tick_eq threshold parse state now fetch
  rw [hrem, if_pos (Or.inl (by norm_num))] at hteq
  exact ⟨hrem, by rw [hteq], by rw [hteq], fun rest => rfl⟩

/-! ## Claim C3 -/

/-- C3 counterexample: a creation request that violates the mutual
exclusion — the body provides `linked_subscription`, `issued_at` and
`validity_days` all set — passes `LicenseCreate` validation (the field
validator runs, but reads the not-yet-validated
`issued_at`/`validity_days` from `values.data` as `None`), and the
persisted record has `linked_subscription` set *and* both `issued_at`
and `validity_days` populated, so neither arm (a) nor arm (b) of the
claimed exactly-one invariant holds on the stored record. -/
theorem C3_counterexample :
    licenseCreateValidate
        { tenant_id := "t1", template_id := none,
          linked_subscription_field := some (some "s1"),
          issued_at := some { date := ⟨2024, 1, 1⟩, sec := 0 }, validity_days := some 10,
          payload := "pay" }
      = .ok { tenant_id := "t1", template_id := none,
              linked_subscription_field := some (some "s1"),
              issued_at := some { date := ⟨2024, 1, 1⟩, sec := 0 }, validity_days := some 10,
              payload := "pay" } ∧
    ∃ lic,
      create_license
          { licenses := [], masterKeys := [],
            subscription := fun sid =>
              if sid = "s1" then
                some { status := "active", issue_date := { date := ⟨2024, 2, 1⟩, sec := 0 },
                       end_date := some { date := ⟨2024, 3, 1⟩, sec := 0 },
                       plan_id := "p1", planPresent := false }
              else none,
            plan := fun _ => none, tenant := fun _ => none }
          { tenant_id := "t1", template_id := none,
            linked_subscription_field := some (some "s1"),
            issued_at := some { date := ⟨2024, 1, 1⟩, sec := 0 }, validity_days := some 10,
            payload := "pay" }
          "KEY" "SEC" "ID"
        = .ok lic ∧
      lic.linked_subscription = some "s1" ∧
      lic.issued_at.isSome = true ∧ lic.validity_days.isSome = true :=
  ⟨rfl, _, rfl, rfl, rfl, rfl⟩

/-- C3 (amended): license creation enforces no mutual exclusion.  A
request providing a truthy `linked_subscription` passes the validator
even when `issued_at`/`validity_days` are also set (the validator reads
the not-yet-validated fields as `None`); a request that *omits* the
`linked_subscription` key skips the field validator entirely and is
accepted even without `issued_at`/`validity_days`; only a request
explicitly providing a null or empty `linked_subscription` is
rejected — with the "required" message, even when `issued_at` and
`validity_days` are both present.  On persisted records a single
direction survives: a linked record always carries `issued_at` and
`validity_days` (derived from the subscription), while an unlinked
record carries exactly the request's `issued_at`/`validity_days`,
present or not. -/
theorem C3_license_creation (db : Db) (req : LicenseCreateReq) (k sec i : String)
    (lic : License)
    (hcr : create_license db req k sec i = .ok lic) :
    (optStrTruthy req.linked_subscription = true →
      lic.linked_subscription = req.linked_subscription ∧
      lic.issued_at.isSome = true ∧ lic.validity_days.isSome = true) ∧
    (optStrTruthy req.linked_subscription = false →
      lic.linked_subscription = req.linked_subscription ∧
      lic.issued_at = req.issued_at ∧ lic.validity_days = req.validity_days) ∧
    (∀ r : LicenseCreateReq, r.linked_subscription_field = none →
      (∀ v, r.validity_days = some v → 0 < v) →
      licenseCreateValidate r = .ok r) ∧
    (∀ r : LicenseCreateReq, ∀ v, r.linked_subscription_field = some v →
      optStrTruthy v = false →
      licenseCreateValidate r =
        .error "When linked_subscription is not provided, issued_at and validity_days are required") ∧
    (∀ r : LicenseCreateReq, ∀ v, r.linked_subscription_field = some v →
      optStrTruthy v = true → (∀ w, r.validity_days = some w → 0 < w) →
      licenseCreateValidate r = .ok r) := by
  refine ⟨?_, ?_, ?_, ?_, ?_⟩
  · intro htr
    unfold create_license at hcr
    rw [htr] at hcr
    simp only [if_true] at hcr
    rcases hs : db.subscription (req.linked_subscription.getD "") with _ | sub <;>
      rw [hs] at hcr <;> simp only [] at hcr
    · simp at hcr
    rcases hv : createValidityDays db sub with e | vd <;> rw [hv] at hcr <;>
      simp only [] at hcr
    · simp at hcr
    injection hcr with hlic
    subst hlic
    exact ⟨rfl, rfl, rfl⟩
  · intro hfa
    unfold create_license at hcr
    rw [hfa] at hcr
    simp only [Bool.false_eq_true, if_false] at hcr
    injection hcr with hlic
    subst hlic
    exact ⟨rfl, rfl, rfl⟩
  · intro r hro hvd
    unfold licenseCreateValidate
    simp only [hro]
    rcases hv : r.validity_days with _ | w <;> simp only [hv]
    rw [if_pos (hvd w hv)]
  · intro r v hro hfa
    have hval : validateSubscriptionFields v =
        .error "When linked_subscription is not provided, issued_at and validity_days are required" := by
      unfold validateSubscriptionFields
      simp [hfa]
    unfold licenseCreateValidate
    simp only [hro, hval]
  · intro r v hro htr hvd
    have hval : validateSubscriptionFields v = .ok () := by
      unfold validateSubscriptionFields
      simp [htr]
    unfold licenseCreateValidate
    simp only [hro, hval]
    rcases hv : r.validity_days with _ | w <;> simp only [hv]
    rw [if_pos (hvd w hv)]

/-- C3 witness: the amended theorem at the concrete violating request of
the counterexample scenario (the body provides `linked_subscription`,
`issued_at` and `validity_days` all set). -/
theorem C3_license_creation_witness :
    (optStrTruthy
        (LicenseCreateReq.mk "t1" none (some (some "s1"))
          (some { date := ⟨2024, 1, 1⟩, sec := 0 }) (some 10) "pay").linked_subscription
      = true →
      (License.mk "ID" "KEY" "SEC" "t1" none (some "s1")
          (some { date := ⟨2024, 2, 1⟩, sec := 0 }) (some 29) "pay").linked_subscription =
        (LicenseCreateReq.mk "t1" none (some (some "s1"))
          (some { date := ⟨2024, 1, 1⟩, sec := 0 }) (some 10) "pay").linked_subscription ∧
      (License.mk "ID" "KEY" "SEC" "t1" none (some "s1")
          (some { date := ⟨2024, 2, 1⟩, sec := 0 }) (some 29) "pay").issued_at.isSome = true ∧
      (License.mk "ID" "KEY" "SEC" "t1" none (some "s1")
          (some { date := ⟨2024, 2, 1⟩, sec := 0 }) (some 29) "pay").validity_days.isSome = true) ∧
    (optStrTruthy
        (LicenseCreateReq.mk "t1" none (some (some "s1"))
          (some { date := ⟨2024, 1, 1⟩, sec := 0 }) (some 10) "pay").linked_subscription
      = false →
      (License.mk "ID" "KEY" "SEC" "t1" none (some "s1")
          (some { date := ⟨2024, 2, 1⟩, sec := 0 }) (some 29) "pay").linked_subscription =
        (LicenseCreateReq.mk "t1" none (some (some "s1"))
          (some { date := ⟨2024, 1, 1⟩, sec := 0 }) (some 10) "pay").linked_subscription ∧
      (License.mk "ID" "KEY" "SEC" "t1" none (some "s1")
          (some { date := ⟨2024, 2, 1⟩, sec := 0 }) (some 29) "pay").issued_at =
        (LicenseCreateReq.mk "t1" none (some (some "s1"))
          (some { date := ⟨2024, 1, 1⟩, sec := 0 }) (some 10) "pay").issued_at ∧
      (License.mk "ID" "KEY" "SEC" "t1" none (some "s1")
          (some { date := ⟨2024, 2, 1⟩, sec := 0 }) (some 29) "pay").validity_days =
        (LicenseCreateReq.mk "t1" none (some (some "s1"))
          (some { date := ⟨2024, 1, 1⟩, sec := 0 }) (some 10) "pay").validity_days) ∧
    (∀ r : LicenseCreateReq, r.linked_subscription_field = none →
      (∀ v, r.validity_days = some v → 0 < v) →
      licenseCreateValidate r = .ok r) ∧
    (∀ r : LicenseCreateReq, ∀ v, r.linked_subscription_field = some v →
      optStrTruthy v = false →
      licenseCreateValidate r =
        .error "When linked_subscription is not provided, issued_at and validity_days are required") ∧
    (∀ r : LicenseCreateReq, ∀ v, r.linked_subscription_field = some v →
      optStrTruthy v = true → (∀ w, r.validity_days = some w → 0 < w) →
      licenseCreateValidate r = .ok r) :=
  C3_license_creation
    { licenses := [], masterKeys := [],
      subscription := fun sid =>
        if sid = "s1" then
          some { status := "active", issue_date := { date := ⟨2024, 2, 1⟩, sec := 0 },
                 end_date := some { date := ⟨2024, 3, 1⟩, sec := 0 },
                 plan_id := "p1", planPresent := false }
        else none,
      plan := fun _ => none, tenant := fun _ => none }
    (LicenseCreateReq.mk "t1" none (some (some "s1"))
      (some { date := ⟨2024, 1, 1⟩, sec := 0 }) (some 10) "pay")
    "KEY" "SEC" "ID"
    (License.mk "ID" "KEY" "SEC" "t1" none (some "s1")
      (some { date := ⟨2024, 2, 1⟩, sec := 0 }) (some 29) "pay")
    (by decide)

/-! ## Claim C4 -/

/-- C4 counterexample: with a master-key table whose only record is
*inactive* and a license whose `linked_subscription` points to a missing
subscription, `issue_license_file` raises neither a key-not-configured
error nor a subscription-inconsistency error: it succeeds, encrypting
under the inactive first record's public key and keeping the record's
stored `validity_days` — refuting both "fails exactly when no active
master key is configured" and "fails whenever the referenced subscription
does not exist". -/
theorem C4_counterexample :
    issue_license_file
        { licenses := [{ id := "L1", license_key := "KEY", license_secret := "SEC",
                         tenant_id := "t1", template_id := none,
                         linked_subscription := some "s1",
                         issued_at := some { date := ⟨2024, 1, 1⟩, sec := 0 },
                         validity_days := some 10, payload := "pay" }],
          masterKeys := [{ id := "m1", public_key := "PUB", private_key := "PRIV",
                           is_active := false }],
          subscription := fun _ => none, plan := fun _ => none, tenant := fun _ => none }
        (.ok "KEY")
      = .ok { lic := { id := "L1", tenant_id := "t1", linked_subscription := some "s1",
                       issued_at := some { date := ⟨2024, 1, 1⟩, sec := 0 },
                       validity_days := some 10, payload := "pay", expires_at := none },
              signedWith := "SEC", encryptedWith := "PUB" } := by
  rfl

/-- C4 (amended): for a found license whose linked subscription is
missing, issuance reports "Master key not configured" (HTTP 500) exactly
when the master-key table is empty — activity of the records is never
consulted — and otherwise succeeds with no subscription-inconsistency
error, encrypting under the *first* master-key record's public key
(active or not) and stamping the record's stored `validity_days`. -/
theorem C4_issue_error_conditions (db : Db) (key : String) (lic : License)
    (hfind : db.findLicense key = some lic)
    (hlinked : optStrTruthy lic.linked_subscription = true)
    (hsub : db.subscription (lic.linked_subscription.getD "") = none) :
    (db.masterKeys = [] →
      issue_license_file db (.ok key) = .error (.http 500 "Master key not configured")) ∧
    (∀ mk, db.masterKeys.head? = some mk →
      issue_license_file db (.ok key) =
        .ok { lic := { id := lic.id, tenant_id := lic.tenant_id,
                       linked_subscription := lic.linked_subscription,
                       issued_at := lic.issued_at, validity_days := lic.validity_days,
                       payload := lic.payload, expires_at := none },
              signedWith := lic.license_secret, encryptedWith := mk.public_key }) := by
  have hval : issueValidity db lic = .ok (lic.validity_days, none) := by
    unfold issueValidity
    rw [hlinked]
    simp only [if_true, hsub]
  constructor
  · intro hempty
    unfold issue_license_file
    simp only [hfind, hval, hempty, List.head?_nil]
  · intro mk hmk
    unfold issue_license_file
    simp only [hfind, hval, hmk]

/-- C4 witness: the amended theorem at the counterexample database (one
inactive master-key record, missing linked subscription). -/
theorem C4_issue_error_conditions_witness :
    (([{ id := "m1", public_key := "PUB", private_key := "PRIV",
         is_active := false }] : List MasterKey) = [] →
      issue_license_file
          { licenses := [{ id := "L1", license_key := "KEY", license_secret := "SEC",
                           tenant_id := "t1", template_id := none,
                           linked_subscription := some "s1",
                           issued_at := some { date := ⟨2024, 1, 1⟩, sec := 0 },
                           validity_days := some 10, payload := "pay" }],
            masterKeys := [{ id := "m1", public_key := "PUB", private_key := "PRIV",
                             is_active := false }],
            subscription := fun _ => none, plan := fun _ => none, tenant := fun _ => none }
          (.ok "KEY")
        = .error (.http 500 "Master key not configured")) ∧
    (∀ mk, ([{ id := "m1", public_key := "PUB", private_key := "PRIV",
               is_active := false }] : List MasterKey).head? = some mk →
      issue_license_file
          { licenses := [{ id := "L1", license_key := "KEY", license_secret := "SEC",
                           tenant_id := "t1", template_id := none,
                           linked_subscription := some "s1",
                           issued_at := some { date := ⟨2024, 1, 1⟩, sec := 0 },
                           validity_days := some 10, payload := "pay" }],
            masterKeys := [{ id := "m1", public_key := "PUB", private_key := "PRIV",
                             is_active := false }],
            subscription := fun _ => none, plan := fun _ => none, tenant := fun _ => none }
          (.ok "KEY")
        = .ok { lic := { id := "L1", tenant_id := "t1",
                         linked_subscription := some "s1",
                         issued_at := some { date := ⟨2024, 1, 1⟩, sec := 0 },
                         validity_days := some 10, payload := "pay", expires_at := none },
                signedWith := "SEC", encryptedWith := mk.public_key }) :=
  C4_issue_error_conditions
    { licenses := [{ id := "L1", license_key := "KEY", license_secret := "SEC",
                     tenant_id := "t1", template_id := none,
                     linked_subscription := some "s1",
                     issued_at := some { date := ⟨2024, 1, 1⟩, sec := 0 },
                     validity_days := some 10, payload := "pay" }],
      masterKeys := [{ id := "m1", public_key := "PUB", private_key := "PRIV",
                       is_active := false }],
      subscription := fun _ => none, plan := fun _ => none, tenant := fun _ => none }
    "KEY"
    { id := "L1", license_key := "KEY", license_secret := "SEC",
      tenant_id := "t1", template_id := none, linked_subscription := some "s1",
      issued_at := some { date := ⟨2024, 1, 1⟩, sec := 0 },
      validity_days := some 10, payload := "pay" }
    rfl rfl rfl

/-! ## Claim C5 -/

/-- C5 counterexample: a subscription-linked license (stored
`validity_days = 31`) whose subscription has no `endDate` and whose
plan's `billing_interval` is `"weekly"` (neither `monthly` nor
`yearly`): `issue_license_file` has no 30-day fallback branch, so the
issued artifact carries the stored 31 — not the 30 the claim promises
for every call site. -/
theorem C5_counterexample :
    issue_license_file
        { licenses := [{ id := "L1", license_key := "KEY", license_secret := "SEC",
                         tenant_id := "t1", template_id := none,
                         linked_subscription := some "s1",
                         issued_at := some { date := ⟨2024, 1, 1⟩, sec := 0 },
                         validity_days := some 31, payload := "pay" }],
          masterKeys := [{ id := "m1", public_key := "PUB", private_key := "PRIV",
                           is_active := true }],
          subscription := fun _ =>
            some { status := "active", issue_date := { date := ⟨2024, 1, 1⟩, sec := 0 },
                   end_date := none, plan_id := "p1", planPresent := true },
          plan := fun _ => some { billing_interval := "weekly" },
          tenant := fun _ => none }
        (.ok "KEY")
      = .ok { lic := { id := "L1", tenant_id := "t1", linked_subscription := some "s1",
                       issued_at := some { date := ⟨2024, 1, 1⟩, sec := 0 },
                       validity_days := some 31, payload := "pay",
                       expires_at :=
                         some (addDaysInstant { date := ⟨2024, 1, 1⟩, sec := 0 } 30) },
              signedWith := "SEC", encryptedWith := "PUB" } ∧
    some (31 : Int) ≠ some (30 : Int) := by
  exact ⟨rfl, by decide⟩

/-- C5 (amended): for a subscription without `endDate` whose plan
interval is neither `monthly` nor `yearly`, the 30-day fallback applies
at license creation (`create_license`) and inside file-verification's
validity computation (whose verdict is nevertheless `"invalid"`, the
unbound-`timedelta` local being read right after the fallback), but
artifact issuance has no fallback: the issued artifact carries the
record's stored `validity_days`, with the stamped expiry computed from
that stored value. -/
theorem C5_thirty_day_fallback (db : Db) (env : FileEnv) (key sid : String)
    (lic : License) (sub : Subscription) (plan : Plan) (mk : MasterKey) (v : Int)
    (hsub : db.subscription sid = some sub)
    (hstat : sub.status = "active")
    (hend : sub.end_date = none)
    (hpp : sub.planPresent = true)
    (hplan : db.plan sub.plan_id = some plan)
    (hmon : plan.billing_interval ≠ "monthly")
    (hyr : plan.billing_interval ≠ "yearly")
    (hfind : db.findLicense key = some lic)
    (hlk : lic.linked_subscription = some sid)
    (hne : sid.isEmpty = false)
    (hvd : lic.validity_days = some v)
    (hmk : db.masterKeys.head? = some mk) :
    createValidityDays db sub = .ok 30 ∧
    fileLinkedValidity db env sid = ("invalid", some 30) ∧
    issue_license_file db (.ok key) =
      .ok { lic := { id := lic.id, tenant_id := lic.tenant_id,
                     linked_subscription := lic.linked_subscription,
                     issued_at := lic.issued_at, validity_days := some v,
                     payload := lic.payload,
                     expires_at := some (addDaysInstant sub.issue_date (v - 1)) },
            signedWith := lic.license_secret, encryptedWith := mk.public_key } := by
  refine ⟨?_, ?_, ?_⟩
  · unfold createValidityDays
    simp only [hend, hplan, if_neg hmon, if_neg hyr]
  · unfold fileLinkedValidity
    simp only [hsub, hstat, hend, hpp, hplan, if_neg hmon, if_neg hyr, ne_eq,
      not_true_eq_false, if_false, if_true]
  · have hval : issueValidity db lic =
        .ok (some v, some (addDaysInstant sub.issue_date (v - 1))) := by
      unfold issueValidity
      simp only [hlk, optStrTruthy, hne, Bool.not_false, Option.getD_some, hsub, hend,
        hpp, hplan, if_neg hmon, if_neg hyr, hvd, if_true]
    unfold issue_license_file
    simp only [hfind, hval, hmk]

/-- C5 witness: the amended theorem at the counterexample scenario
(stored `validity_days = 31`, interval `"weekly"`). -/
theorem C5_thirty_day_fallback_witness :
    createValidityDays
        { licenses := [{ id := "L1", license_key := "KEY", license_secret := "SEC",
                         tenant_id := "t1", template_id := none,
                         linked_subscription := some "s1",
                         issued_at := some { date := ⟨2024, 1, 1⟩, sec := 0 },
                         validity_days := some 31, payload := "pay" }],
          masterKeys := [{ id := "m1", public_key := "PUB", private_key := "PRIV",
                           is_active := true }],
          subscription := fun _ =>
            some { status := "active", issue_date := { date := ⟨2024, 1, 1⟩, sec := 0 },
                   end_date := none, plan_id := "p1", planPresent := true },
          plan := fun _ => some { billing_interval := "weekly" },
          tenant := fun _ => none }
        { status := "active", issue_date := { date := ⟨2024, 1, 1⟩, sec := 0 },
          end_date := none, plan_id := "p1", planPresent := true }
      = .ok 30 ∧
    fileLinkedValidity
        { licenses := [{ id := "L1", license_key := "KEY", license_secret := "SEC",
                         tenant_id := "t1", template_id := none,
                         linked_subscription := some "s1",
                         issued_at := some { date := ⟨2024, 1, 1⟩, sec := 0 },
                         validity_days := some 31, payload := "pay" }],
          masterKeys := [{ id := "m1", public_key := "PUB", private_key := "PRIV",
                           is_active := true }],
          subscription := fun _ =>
            some { status := "active", issue_date := { date := ⟨2024, 1, 1⟩, sec := 0 },
                   end_date := none, plan_id := "p1", planPresent := true },
          plan := fun _ => some { billing_interval := "weekly" },
          tenant := fun _ => none }
        { keyDecode := .ok "KEY", fileRead := .ok "CT",
          decrypt := fun _ _ => .ok "PLAIN", jsonParse := fun _ => .error .valueError,
          dumps := fun _ => "J", verifySig := fun _ _ _ => true, now := 0 }
        "s1"
      = ("invalid", some 30) ∧
    issue_license_file
        { licenses := [{ id := "L1", license_key := "KEY", license_secret := "SEC",
                         tenant_id := "t1", template_id := none,
                         linked_subscription := some "s1",
                         issued_at := some { date := ⟨2024, 1, 1⟩, sec := 0 },
                         validity_days := some 31, payload := "pay" }],
          masterKeys := [{ id := "m1", public_key := "PUB", private_key := "PRIV",
                           is_active := true }],
          subscription := fun _ =>
            some { status := "active", issue_date := { date := ⟨2024, 1, 1⟩, sec := 0 },
                   end_date := none, plan_id := "p1", planPresent := true },
          plan := fun _ => some { billing_interval := "weekly" },
          tenant := fun _ => none }
        (.ok "KEY")
      = .ok { lic := { id := "L1", tenant_id := "t1", linked_subscription := some "s1",
                       issued_at := some { date := ⟨2024, 1, 1⟩, sec := 0 },
                       validity_days := some 31, payload := "pay",
                       expires_at :=
                         some (addDaysInstant { date := ⟨2024, 1, 1⟩, sec := 0 } (31 - 1)) },
              signedWith := "SEC", encryptedWith := "PUB" } :=
  C5_thirty_day_fallback
    { licenses := [{ id := "L1", license_key := "KEY", license_secret := "SEC",
                     tenant_id := "t1", template_id := none,
                     linked_subscription := some "s1",
                     issued_at := some { date := ⟨2024, 1, 1⟩, sec := 0 },
                     validity_days := some 31, payload := "pay" }],
      masterKeys := [{ id := "m1", public_key := "PUB", private_key := "PRIV",
                       is_active := true }],
      subscription := fun _ =>
        some { status := "active", issue_date := { date := ⟨2024, 1, 1⟩, sec := 0 },
               end_date := none, plan_id := "p1", planPresent := true },
      plan := fun _ => some { billing_interval := "weekly" },
      tenant := fun _ => none }
    { keyDecode := .ok "KEY", fileRead := .ok "CT",
      decrypt := fun _ _ => .ok "PLAIN", jsonParse := fun _ => .error .valueError,
      dumps := fun _ => "J", verifySig := fun _ _ _ => true, now := 0 }
    "KEY" "s1"
    { id := "L1", license_key := "KEY", license_secret := "SEC",
      tenant_id := "t1", template_id := none, linked_subscription := some "s1",
      issued_at := some { date := ⟨2024, 1, 1⟩, sec := 0 },
      validity_days := some 31, payload := "pay" }
    { status := "active", issue_date := { date := ⟨2024, 1, 1⟩, sec := 0 },
      end_date := none, plan_id := "p1", planPresent := true }
    { billing_interval := "weekly" }
    { id := "m1", public_key := "PUB", private_key := "PRIV", is_active := true }
    31
    rfl rfl rfl rfl rfl (by decide) (by decide) rfl rfl rfl rfl rfl

/-! ## Claims C7, C2, C1 — the file verifier -/

theorem fileLinkedValidity_cases (db : Db) (env : FileEnv) (sid : String) :
    (fileLinkedValidity db env sid).1 = "valid" ∨
      (fileLinkedValidity db env sid).1 = "invalid" := by
  unfold fileLinkedValidity
  rcases db.subscription sid with _ | sub
  · simp
  repeat' split <;> try simp
  all_goals omega

theorem fileStandardValidity_invalid (env : FileEnv) (li : LicenseInfo) :
    fileStandardValidity env li = "invalid" := by
  unfold fileStandardValidity
  rcases li.issued_at with _ | iaE
  · rfl
  rcases li.validity_days with _ | v
  · rfl
  rcases iaE with e | dt <;> rfl

theorem fileValidity_cases (db : Db) (env : FileEnv) (li : LicenseInfo) :
    fileValidity db env li = "valid" ∨ fileValidity db env li = "invalid" := by
  unfold fileValidity
  split
  · exact fileLinkedValidity_cases db env _
  · rw [fileStandardValidity_invalid]
    right
    rfl

/-- C7: for every database state and every behaviour of the fallible
library calls (form-key base64 decode, file read, hybrid decryption, JSON
parse, timestamp parse, signature check), `validate_license_file` returns
a well-formed tri-state `{parsing, signature, validity}` report — it
never propagates an exception — and a decryption (or envelope-parse)
failure yields exactly `parsing = "failed"`,
`signature = "verification_failed"`, `validity = "invalid"`. -/
theorem C7_file_verifier_tri_state (db : Db) (env : FileEnv) :
    ((validate_license_file db env).parsing = "success" ∨
      (validate_license_file db env).parsing = "failed") ∧
    ((validate_license_file db env).signature = "verified" ∨
      (validate_license_file db env).signature = "verification_failed") ∧
    ((validate_license_file db env).validity = "valid" ∨
      (validate_license_file db env).validity = "invalid") ∧
    (∀ key lic content mk e,
      env.keyDecode = .ok key → db.findLicense key = some lic →
      env.fileRead = .ok content → db.masterKeys.head? = some mk →
      env.decrypt content mk.private_key = .error e →
      validate_license_file db env =
        { parsing := "failed", validity := "invalid", signature := "verification_failed",
          license_info := none, error := some "Failed to decrypt or parse license file" }) := by
  refine ⟨?_, ?_, ?_, ?_⟩
  case refine_4 =>
    intro key lic content mk e hk hf hc hm hd
    unfold validate_license_file
    simp only [hk, hf, hc, hm, hd]
  all_goals
    unfold validate_license_file
    rcases hk : env.keyDecode with e | key
    · simp [hk]
    simp only [hk]
    rcases hf : db.findLicense key with _ | lic
    · simp [hf]
    simp only [hf]
    rcases hc : env.fileRead with e | content
    · simp [hc]
    simp only [hc]
    rcases hm : db.masterKeys.head? with _ | mk
    · simp [hm]
    simp only [hm]
    rcases hd : env.decrypt content mk.private_key with e | plain
    · simp [hd]
    simp only [hd]
    rcases hj : env.jsonParse plain with e | ld
    · simp [hj]
    simp only [hj]
  case refine_1 =>
    trivial
  case refine_2 =>
    rcases ld with ⟨lio, sio⟩
    rcases lio with _ | li <;> rcases sio with _ | sg
    · right; rfl
    · right; rfl
    · right; rfl
    · simp only []
      split
      · left; rfl
      · right; rfl
  case refine_3 =>
    rcases ld with ⟨lio, sio⟩
    rcases lio with _ | li
    · right; rfl
    · exact fileValidity_cases db env li

/-- C7 witness: a concrete decryption failure collapses to the exact
tri-state error report. -/
theorem C7_file_verifier_tri_state_witness :
    validate_license_file
        { licenses := [{ id := "L1", license_key := "KEY", license_secret := "SEC",
                         tenant_id := "t1", template_id := none, linked_subscription := none,
                         issued_at := some { date := ⟨2024, 1, 1⟩, sec := 0 },
                         validity_days := some 30, payload := "pay" }],
          masterKeys := [{ id := "m1", public_key := "PUB", private_key := "PRIV",
                           is_active := true }],
          subscription := fun _ => none, plan := fun _ => none, tenant := fun _ => none }
        { keyDecode := .ok "KEY", fileRead := .ok "GARBAGE",
          decrypt := fun _ _ => .error .valueError, jsonParse := fun _ => .error .valueError,
          dumps := fun _ => "J", verifySig := fun _ _ _ => false, now := 0 }
      = { parsing := "failed", validity := "invalid", signature := "verification_failed",
          license_info := none, error := some "Failed to decrypt or parse license file" } :=
  (C7_file_verifier_tri_state
      { licenses := [{ id := "L1", license_key := "KEY", license_secret := "SEC",
                       tenant_id := "t1", template_id := none, linked_subscription := none,
                       issued_at := some { date := ⟨2024, 1, 1⟩, sec := 0 },
                       validity_days := some 30, payload := "pay" }],
        masterKeys := [{ id := "m1", public_key := "PUB", private_key := "PRIV",
                         is_active := true }],
        subscription := fun _ => none, plan := fun _ => none, tenant := fun _ => none }
      { keyDecode := .ok "KEY", fileRead := .ok "GARBAGE",
        decrypt := fun _ _ => .error .valueError, jsonParse := fun _ => .error .valueError,
        dumps := fun _ => "J", verifySig := fun _ _ _ => false, now := 0 }).2.2.2
    "KEY"
    { id := "L1", license_key := "KEY", license_secret := "SEC",
      tenant_id := "t1", template_id := none, linked_subscription := none,
      issued_at := some { date := ⟨2024, 1, 1⟩, sec := 0 },
      validity_days := some 30, payload := "pay" }
    "GARBAGE"
    { id := "m1", public_key := "PUB", private_key := "PRIV", is_active := true }
    .valueError
    rfl rfl rfl rfl rfl

/-- C2 failing input: an artifact naming a linked subscription that is
active and has an `end_date` strictly in the future.  The source's
`end_date` branch (lines 625-631) computes `validity_days` and
`expiry_date` but contains no comparison against "now" — the comparison
sits inside the billing-interval branch only — so the initial
`validity_status = "invalid"` survives, and file-based verification
reports `validity = "invalid"` where the claim requires `"valid"`. -/
theorem C2_failing_input :
    DateTime.toInstant { date := ⟨2024, 6, 1⟩, sec := 0 } <
      DateTime.toInstant { date := ⟨2030, 1, 1⟩, sec := 0 } ∧
    validate_license_file
        { licenses := [{ id := "L1", license_key := "KEY", license_secret := "SEC",
                         tenant_id := "t1", template_id := none,
                         linked_subscription := some "s1",
                         issued_at := none, validity_days := none, payload := "pay" }],
          masterKeys := [{ id := "m1", public_key := "PUB", private_key := "PRIV",
                           is_active := true }],
          subscription := fun _ =>
            some { status := "active", issue_date := { date := ⟨2024, 1, 1⟩, sec := 0 },
                   end_date := some { date := ⟨2030, 1, 1⟩, sec := 0 },
                   plan_id := "p1", planPresent := true },
          plan := fun _ => some { billing_interval := "monthly" },
          tenant := fun _ => none }
        { keyDecode := .ok "KEY", fileRead := .ok "CT",
          decrypt := fun _ _ => .ok "PLAIN",
          jsonParse := fun _ =>
            .ok { license := some { linked_subscription := some "s1",
                                    issued_at := some (.ok { date := ⟨2024, 1, 1⟩, sec := 0 }),
                                    validity_days := some 100 },
                  signature := some "SIG" },
          dumps := fun _ => "J", verifySig := fun _ _ _ => true,
          now := DateTime.toInstant { date := ⟨2024, 6, 1⟩, sec := 0 } }
      = { parsing := "success", validity := "invalid", signature := "verified",
          license_info := some { linked_subscription := some "s1",
                                 issued_at := some (.ok { date := ⟨2024, 1, 1⟩, sec := 0 }),
                                 validity_days := some 100 },
          error := none } :=
  ⟨by decide, by rfl⟩

/-- C1 failing input: a freshly issued artifact for a stored
non-subscription license (issued 2024-01-01, `validity_days = 30`),
checked the next day — squarely inside the claimed validity window
`expiry = issuedAt + (validityDays - 1) days`.  The record-based endpoint
`validate_license` evaluates `datetime.timedelta` on the *class*
`datetime` (line 502) and raises `AttributeError`, surfaced as HTTP 500
in a `{"valid": ...}` shape rather than the tri-state; the file-based
endpoint `validate_license_file` reads the never-bound local `timedelta`
(line 686), catches the `UnboundLocalError`, and reports
`validity = "invalid"`.  The two endpoints agree on neither shape nor
verdict, and neither computes the claimed window. -/
theorem C1_failing_input :
    DateTime.toInstant { date := ⟨2024, 1, 2⟩, sec := 0 } ≤
      addDaysInstant { date := ⟨2024, 1, 1⟩, sec := 0 } (30 - 1) ∧
    validate_license
        { licenses := [{ id := "L1", license_key := "KEY", license_secret := "SEC",
                         tenant_id := "t1", template_id := none, linked_subscription := none,
                         issued_at := some { date := ⟨2024, 1, 1⟩, sec := 0 },
                         validity_days := some 30, payload := "pay" }],
          masterKeys := [{ id := "m1", public_key := "PUB", private_key := "PRIV",
                           is_active := true }],
          subscription := fun _ => none, plan := fun _ => none,
          tenant := fun _ => some { is_active := true } }
        "KEY" (DateTime.toInstant { date := ⟨2024, 1, 2⟩, sec := 0 })
      = .http 500 "Validation error: type object datetime.datetime has no attribute timedelta" ∧
    validate_license_file
        { licenses := [{ id := "L1", license_key := "KEY", license_secret := "SEC",
                         tenant_id := "t1", template_id := none, linked_subscription := none,
                         issued_at := some { date := ⟨2024, 1, 1⟩, sec := 0 },
                         validity_days := some 30, payload := "pay" }],
          masterKeys := [{ id := "m1", public_key := "PUB", private_key := "PRIV",
                           is_active := true }],
          subscription := fun _ => none, plan := fun _ => none,
          tenant := fun _ => some { is_active := true } }
        { keyDecode := .ok "KEY", fileRead := .ok "CT",
          decrypt := fun _ _ => .ok "PLAIN",
          jsonParse := fun _ =>
            .ok { license := some { linked_subscription := none,
                                    issued_at := some (.ok { date := ⟨2024, 1, 1⟩, sec := 0 }),
                                    validity_days := some 30 },
                  signature := some "SIG" },
          dumps := fun _ => "J", verifySig := fun _ _ _ => true,
          now := DateTime.toInstant { date := ⟨2024, 1, 2⟩, sec := 0 } }
      = { parsing := "success", validity := "invalid", signature := "verified",
          license_info := some { linked_subscription := none,
                                 issued_at := some (.ok { date := ⟨2024, 1, 1⟩, sec := 0 }),
                                 validity_days := some 30 },
          error := none } :=
  ⟨by decide, by rfl, by rfl⟩

/-! ## Claim C8 — hybrid encryption round-trip -/

theorem b64Dec_b64Code : ∀ n < 64, b64Dec (b64Code n) = n := by decide

theorem b64Code_ne_colon (n : Nat) : b64Code n ≠ 58 := by
  unfold b64Code
  split_ifs <;> omega

theorem b64Code_ne_pad (n : Nat) : b64Code n ≠ 61 := by
  unfold b64Code
  split_ifs <;> omega

theorem colon_not_mem_encodeB64 (l : List Nat) : 58 ∉ encodeB64 l := by
  have hne : ∀ n : Nat, (58 : Nat) ≠ b64Code n := fun n h => b64Code_ne_colon n h.symm
  induction l using encodeB64.induct with
  | case1 => simp [encodeB64]
  | case2 a => simp [encodeB64, hne]
  | case3 a b => simp [encodeB64, hne]
  | case4 a b c rest ih => simp [encodeB64, hne, ih]

theorem splitFirstColon_append (xs ys : List Nat) (hx : 58 ∉ xs) :
    splitFirstColon (xs ++ 58 :: ys) = some (xs, ys) := by
  induction xs with
  | nil => simp [splitFirstColon]
  | cons c rest ih =>
      have hc : ¬(c = 58) := fun h => hx (by simp [h])
      have hrest : 58 ∉ rest := fun h => hx (by simp [h])
      simp only [List.cons_append, splitFirstColon, if_neg hc, List.append_eq]
      rw [ih hrest]
      rfl

theorem decodeB64_encodeB64 (l : List Nat) (hl : isBytes l) :
    decodeB64 (encodeB64 l) = some l := by
  induction l using encodeB64.induct with
  | case1 => rfl
  | case2 a =>
      have ha : a < 256 := hl a (by simp)
      show decodeB64 [b64Code (a / 4), b64Code (a % 4 * 16), 61, 61] = some [a]
      simp only [decodeB64, and_self, if_true]
      rw [b64Dec_b64Code _ (by omega), b64Dec_b64Code _ (by omega)]
      have h1 : a / 4 * 4 + a % 4 * 16 / 16 = a := by omega
      rw [h1]
  | case3 a b =>
      have ha : a < 256 := hl a (by simp)
      have hb : b < 256 := hl b (by simp)
      show decodeB64
          [b64Code (a / 4), b64Code (a % 4 * 16 + b / 16), b64Code (b % 16 * 4), 61]
        = some [a, b]
      simp only [decodeB64, and_self, if_true]
      rw [if_neg (b64Code_ne_pad (b % 16 * 4)),
        b64Dec_b64Code _ (by omega), b64Dec_b64Code _ (by omega),
        b64Dec_b64Code _ (by omega)]
      have h1 : a / 4 * 4 + (a % 4 * 16 + b / 16) / 16 = a := by omega
      have h2 : (a % 4 * 16 + b / 16) % 16 * 16 + b % 16 * 4 / 4 = b := by omega
      rw [h1, h2]
  | case4 a b c rest ih =>
      have ha : a < 256 := hl a (by simp)
      have hb : b < 256 := hl b (by simp)
      have hc : c < 256 := hl c (by simp)
      have hrest : isBytes rest := fun x hx => hl x (by simp [hx])
      show decodeB64
          (b64Code (a / 4) :: b64Code (a % 4 * 16 + b / 16) ::
            b64Code (b % 16 * 4 + c / 64) :: b64Code (c % 64) :: encodeB64 rest)
        = some (a :: b :: c :: rest)
      simp only [decodeB64, and_self, if_true]
      rw [if_neg (b64Code_ne_pad (b % 16 * 4 + c / 64)),
        if_neg (b64Code_ne_pad (c % 64)), ih hrest]
      simp only [Option.map_some']
      rw [b64Dec_b64Code _ (by omega), b64Dec_b64Code _ (by omega),
        b64Dec_b64Code _ (by omega), b64Dec_b64Code _ (by omega)]
      have h1 : a / 4 * 4 + (a % 4 * 16 + b / 16) / 16 = a := by omega
      have h2 : (a % 4 * 16 + b / 16) % 16 * 16 + (b % 16 * 4 + c / 64) / 4 = b := by omega
      have h3 : (b % 16 * 4 + c / 64) % 4 * 64 + c % 64 = c := by omega
      rw [h1, h2, h3]

theorem isBytes_append {l1 l2 : List Nat} (h1 : isBytes l1) (h2 : isBytes l2) :
    isBytes (l1 ++ l2) := by
  intro b hb
  rcases List.mem_append.mp hb with h | h
  · exact h1 b h
  · exact h2 b h

/-- C8: for every payload and every behaviour of the RSA-OAEP / AES-GCM
library primitives consistent with their contracts (the RSA pair inverts
on the drawn AES key, GCM decryption inverts GCM encryption, the drawn
IV is 12 bytes and the produced tag 16 bytes, ciphertexts are byte
strings), `hybrid_decrypt (hybrid_encrypt payload pub) priv` recovers the
payload, where the intermediate artifact is
`base64(RSA-OAEP(AES key)) ':' base64(IV ‖ tag ‖ ciphertext)` — the
colon split is unambiguous because base64 output never contains `':'`. -/
theorem C8_hybrid_roundtrip (p : HybridPrims) (aesKey iv data pub priv : List Nat)
    (haes : aesKey.length = 32)
    (hiv : iv.length = 12) (hivb : isBytes iv)
    (hkey : isBytes (p.rsaEncrypt pub aesKey))
    (htag : (p.gcmEncrypt aesKey iv data).2.length = 16)
    (htagb : isBytes (p.gcmEncrypt aesKey iv data).2)
    (hctb : isBytes (p.gcmEncrypt aesKey iv data).1)
    (hrsa : p.rsaDecrypt priv (p.rsaEncrypt pub aesKey) = aesKey)
    (hgcm : p.gcmDecrypt aesKey iv (p.gcmEncrypt aesKey iv data).2
              (p.gcmEncrypt aesKey iv data).1 = some data) :
    hybrid_decrypt p (hybrid_encrypt p aesKey iv data pub) priv = some data := by
  unfold hybrid_encrypt hybrid_decrypt
  simp only [splitFirstColon_append _ _ (colon_not_mem_encodeB64 _),
    decodeB64_encodeB64 _ hkey,
    decodeB64_encodeB64 _ (isBytes_append (isBytes_append hivb htagb) hctb), hrsa]
  have htake : (iv ++ (p.gcmEncrypt aesKey iv data).2 ++ (p.gcmEncrypt aesKey iv data).1).take 12
      = iv := by
    rw [List.append_assoc, ← hiv, List.take_left]
  have hdrop12 : (iv ++ (p.gcmEncrypt aesKey iv data).2 ++ (p.gcmEncrypt aesKey iv data).1).drop 12
      = (p.gcmEncrypt aesKey iv data).2 ++ (p.gcmEncrypt aesKey iv data).1 := by
    rw [List.append_assoc, ← hiv, List.drop_left]
  have htag16 : ((p.gcmEncrypt aesKey iv data).2 ++ (p.gcmEncrypt aesKey iv data).1).take 16
      = (p.gcmEncrypt aesKey iv data).2 := by
    rw [← htag, List.take_left]
  have hdrop28 : (iv ++ (p.gcmEncrypt aesKey iv data).2 ++ (p.gcmEncrypt aesKey iv data).1).drop 28
      = (p.gcmEncrypt aesKey iv data).1 := by
    rw [show (28 : Nat) = (iv ++ (p.gcmEncrypt aesKey iv data).2).length by
        simp [List.length_append, hiv, htag]]
    rw [List.drop_left]
  rw [htake, hdrop12, htag16, hdrop28]
  exact hgcm

/-- C8 witness: the round-trip theorem at a concrete toy instantiation
of the primitives satisfying the library contracts, on the 2-byte
payload `[104, 105]`. -/
theorem C8_hybrid_roundtrip_witness :
    hybrid_decrypt
        { rsaEncrypt := fun _ m => m, rsaDecrypt := fun _ c => c,
          gcmEncrypt := fun _ _ d => (d, List.replicate 16 7),
          gcmDecrypt := fun _ _ _ ct => some ct }
        (hybrid_encrypt
          { rsaEncrypt := fun _ m => m, rsaDecrypt := fun _ c => c,
            gcmEncrypt := fun _ _ d => (d, List.replicate 16 7),
            gcmDecrypt := fun _ _ _ ct => some ct }
          (List.replicate 32 0) (List.replicate 12 0) [104, 105] [])
        []
      = some [104, 105] :=
  C8_hybrid_roundtrip
    { rsaEncrypt := fun _ m => m, rsaDecrypt := fun _ c => c,
      gcmEncrypt := fun _ _ d => (d, List.replicate 16 7),
      gcmDecrypt := fun _ _ _ ct => some ct }
    (List.replicate 32 0) (List.replicate 12 0) [104, 105] [] []
    (by decide) (by decide) (by decide) (by decide) (by decide) (by decide) (by decide)
    rfl rfl

end SigmaPermit
